import Mathlib

/-!
# DynamicModelDLL and DynamicModel: a shallow embedding

Embedding of `mex/sources/k_order_perturbation/dynamic_dll.cc` (the wrapper that loads
`<model>_dynamic` and calls its `Dynamic` entry point) and of the derivation-id tables and the
block accessors of `preprocessor/DynamicModel.hh`.

Conventions of the embedding.

* C++ `int` is `Int`. Signed overflow is undefined behaviour in C++, so no wrap-around is modelled.
* The wrapper never computes with the doubles it carries: it stores them, zero-fills them
  (`mx.zeros()`) and hands their address to `Dynamic`. A cell is an `Int`, `0` standing for `0.0`.
* A `double *` is what can be read through it: `none` for `NULL`, `some cells` for the block it
  points to.
* Calls that leave the wrapper (`dlopen`, `dlsym`, `dlclose`, the loaded `Dynamic`) are recorded,
  in order, as events of a trace.
-/

namespace Dynare

/-! ## Data model -/

/-- Exception of the wrapper, `DynareException(__FILE__, __LINE__, message)`: the line of the
`throw` in `dynamic_dll.cc` and the message. -/
structure DynareException where
  line : Nat
  message : String
  deriving DecidableEq, Repr

/-- Pointer to doubles: `none` is `NULL`. -/
abbrev DoublePtr := Option (List Int)

/-- The class `Vector` of the numerical library, as far as the wrapper uses it: a block of cells. -/
structure Vector where
  data : List Int
  deriving DecidableEq, Repr

/-- Method `Vector::length()`. -/
def Vector.length (v : Vector) : Int := v.data.length

/-- Method `Vector::base()`. -/
def Vector.base (v : Vector) : DoublePtr := some v.data

/-- The class `TwoDMatrix` of the numerical library, as far as the wrapper uses it: the two
dimensions and the block of cells. -/
structure TwoDMatrix where
  rows : Int
  cols : Int
  data : List Int
  deriving DecidableEq, Repr

/-- Method `TwoDMatrix::nrows()`. -/
def TwoDMatrix.nrows (m : TwoDMatrix) : Int := m.rows

/-- Method `TwoDMatrix::ncols()`. -/
def TwoDMatrix.ncols (m : TwoDMatrix) : Int := m.cols

/-- Method `TwoDMatrix::base()`. -/
def TwoDMatrix.base (m : TwoDMatrix) : DoublePtr := some m.data

/-- Constructor `TwoDMatrix(r, c)`: storage for `r * c` cells (none when the product is not
positive). C++ leaves the cells uninitialised; the model starts them at `1` so that `zeros` is
seen to act. -/
def TwoDMatrix.create (r c : Int) : TwoDMatrix :=
  { rows := r, cols := c, data := List.replicate (r * c).toNat 1 }

/-- Method `TwoDMatrix::zeros()`: every cell is overwritten with zero. -/
def TwoDMatrix.zeros (m : TwoDMatrix) : TwoDMatrix :=
  { m with data := m.data.map (fun _ => 0) }

/-- Handle of a loaded unit (`void *` on Linux and Mac, `HINSTANCE` on Windows). -/
abbrev Handle := Nat

/-- Address of the loaded `Dynamic` function (`DynamicFn`). -/
abbrev DynamicFn := Nat

/-- The ten arguments of one call `Dynamic(y, x, nb_row_x, params, steady_state, it_, residual,
g1, g2, g3)`. -/
structure DynamicArgs where
  y : DoublePtr
  x : DoublePtr
  nb_row_x : Int
  params : DoublePtr
  steady_state : DoublePtr
  it_ : Int
  residual : DoublePtr
  g1 : DoublePtr
  g2 : DoublePtr
  g3 : DoublePtr
  deriving DecidableEq, Repr

/-- What the wrapper does outside itself, in order of occurrence. -/
inductive Event where
  /-- Call `dlopen(path, RTLD_NOW)` or `LoadLibrary(path)`, with the handle returned. -/
  | dlopen (path : String) (ret : Option Handle)
  /-- Call `dlsym(h, name)` or `GetProcAddress(h, name)`, with the address returned. -/
  | dlsym (h : Handle) (name : String) (ret : Option DynamicFn)
  /-- Call `dlclose(h)` or `FreeLibrary(h)`. -/
  | dlclose (h : Handle)
  /-- A call of the loaded function `f`. -/
  | call (f : DynamicFn) (args : DynamicArgs)
  deriving DecidableEq, Repr

/-- Outcome of a member function: the events it produced and either its return value or the
exception it threw. -/
structure Run (α : Type) where
  trace : List Event
  result : Except DynareException α

/-- Whether the run ended in a `DynareException`. -/
def Run.raised {α : Type} (r : Run α) : Bool :=
  match r.result with
  | .error _ => true
  | .ok _ => false

/-- The arguments of the calls of a loaded function found in a trace, in order. -/
def dynamicCalls : List Event → List DynamicArgs
  | [] => []
  | Event.call _ a :: t => a :: dynamicCalls t
  | _ :: t => dynamicCalls t

/-- Data members of `DynamicModelDLL`. -/
structure DynamicModelDLL where
  length : Int
  jcols : Int
  nMax_lag : Int
  nExog : Int
  ySteady : Vector
  dynamicHinstance : Handle
  Dynamic : DynamicFn
  deriving DecidableEq, Repr

/-! ## The `eval` overloads (`dynamic_dll.cc`, lines 96-152) -/

/-- Overload `DynamicModelDLL::eval(double *y, double *x, int nb_row_x, double *params, int it_,
double *residual, double *g1, double *g2, double *g3)`, lines 96-102. -/
def DynamicModelDLL.eval_ptr (s : DynamicModelDLL) (y x : DoublePtr) (nb_row_x : Int)
    (params : DoublePtr) (it_ : Int) (residual g1 g2 g3 : DoublePtr) : Run Unit :=
  let steady_state := s.ySteady.base
  { trace := [Event.call s.Dynamic
      ⟨y, x, nb_row_x, params, steady_state, it_, residual, g1, g2, g3⟩],
    result := .ok () }

/-- Overload `DynamicModelDLL::eval(const Vector &y, const TwoDMatrix &x, const Vector *modParams, int it_,
Vector &residual, TwoDMatrix *g1, TwoDMatrix *g2, TwoDMatrix *g3)`, lines 104-131.
`modParams` is dereferenced without a test, so it is a vector here; `g1`, `g2`, `g3` may
be `NULL`. -/
def DynamicModelDLL.eval_it (s : DynamicModelDLL) (y : Vector) (x : TwoDMatrix)
    (modParams : Vector) (it_ : Int) (residual : Vector) (g1 g2 g3 : Option TwoDMatrix) :
    Run Unit :=
  if s.jcols - s.nExog ≠ y.length then
    { trace := [], result := .error ⟨111, "DLL Error: (jcols-nExog)!=ys.length()"⟩ }
  else
    let rest (dg1 : DoublePtr) : Run Unit :=
      let dg2 : DoublePtr := match g2 with
        | some m => m.base
        | none => none
      let dg3 : DoublePtr := match g3 with
        | some m => m.base
        | none => none
      let dresidual := residual.base
      let dy := y.base
      let dx := x.base
      let dbParams := modParams.base
      let steady_state := s.ySteady.base
      { trace := [Event.call s.Dynamic
          ⟨dy, dx, s.nExog, dbParams, steady_state, it_, dresidual, dg1, dg2, dg3⟩],
        result := .ok () }
    match g1 with
    | some m =>
      if m.nrows ≠ s.length then
        { trace := [], result := .error ⟨116, "DLL Error: g1 has wrong size"⟩ }
      else rest m.base
    | none => rest none

/-- Overload `DynamicModelDLL::eval(const Vector &y, const TwoDMatrix &x, const Vector *modParams,
Vector &residual, TwoDMatrix *g1, TwoDMatrix *g2, TwoDMatrix *g3)`, lines 133-138. -/
def DynamicModelDLL.eval_mat (s : DynamicModelDLL) (y : Vector) (x : TwoDMatrix)
    (modParams : Vector) (residual : Vector) (g1 g2 g3 : Option TwoDMatrix) : Run Unit :=
  s.eval_it y x modParams s.nMax_lag residual g1 g2 g3

/-- Overload `DynamicModelDLL::eval(const Vector &y, const Vector &x, const Vector *modParams,
Vector &residual, TwoDMatrix *g1, TwoDMatrix *g2, TwoDMatrix *g3)`, lines 140-152. -/
def DynamicModelDLL.eval_vec (s : DynamicModelDLL) (y : Vector) (_x : Vector)
    (modParams : Vector) (residual : Vector) (g1 g2 g3 : Option TwoDMatrix) : Run Unit :=
  let mx := (TwoDMatrix.create (s.nMax_lag + 1) s.nExog).zeros
  s.eval_it y mx modParams s.nMax_lag residual g1 g2 g3

/-! ## Loading and releasing the unit (`dynamic_dll.cc`, lines 29-94) -/

/-- The dynamic loader as the constructor and the destructor meet it. The two error flags are
what `dlerror()` answers in the tests of lines 53 and 59; each is consulted only when the value
just returned is not `NULL`, since `||` stops at its first operand otherwise. -/
structure Loader where
  /-- Handle returned by `dlopen(path, RTLD_NOW)` or `LoadLibrary(path)`; `none` is `NULL`. -/
  dlopen : String → Option Handle
  /-- Whether `dlerror()` is non-null when asked after that `dlopen`. -/
  openErr : String → Bool
  /-- Address returned by `dlsym(h, name)` or `GetProcAddress(h, name)`; `none` is `NULL`. -/
  dlsym : Handle → String → Option DynamicFn
  /-- Whether `dlerror()` is non-null when asked after that `dlsym`. -/
  symErr : Handle → String → Bool
  /-- Whether `FreeLibrary(h)` reports success (Windows only). -/
  freeOk : Handle → Bool

/-- The local `fName` of the constructor, lines 33-37; `windows` is the outcome of
`defined(__CYGWIN32__) || defined(_WIN32)`. -/
def fName (windows : Bool) (modName sExt : String) : String :=
  (if windows then "" else "./") ++ (modName ++ "_dynamic" ++ sExt)

/-- The `try` block of the constructor, lines 39-67: the events, and either the `int` thrown or
the values left in `dynamicHinstance` and `Dynamic`. What goes to `cerr` is not recorded. -/
def tryLoad (windows : Bool) (ld : Loader) (path : String) :
    List Event × Except Int (Handle × DynamicFn) :=
  if windows then
    match ld.dlopen path with
    | none => ([Event.dlopen path none], .error 1)
    | some h =>
      match ld.dlsym h "Dynamic" with
      | none =>
        ([Event.dlopen path (some h), Event.dlsym h "Dynamic" none, Event.dlclose h], .error 2)
      | some f =>
        ([Event.dlopen path (some h), Event.dlsym h "Dynamic" (some f)], .ok (h, f))
  else
    match ld.dlopen path with
    | none => ([Event.dlopen path none], .error 1)
    | some h =>
      if ld.openErr path then ([Event.dlopen path (some h)], .error 1)
      else
        match ld.dlsym h "Dynamic" with
        | none =>
          ([Event.dlopen path (some h), Event.dlsym h "Dynamic" none, Event.dlclose h], .error 2)
        | some f =>
          if ld.symErr h "Dynamic" then
            ([Event.dlopen path (some h), Event.dlsym h "Dynamic" (some f), Event.dlclose h],
              .error 2)
          else ([Event.dlopen path (some h), Event.dlsym h "Dynamic" (some f)], .ok (h, f))

/-- The text put between the brackets by the handler `catch (int i)`, lines 72-75. -/
def causeText (i : Int) : String :=
  (if i = 1 then "can't dynamically load the file" else "")
    ++ (if i = 2 then "can't locate the 'Dynamic' symbol" else "")

/-- The message built by the handler `catch (int i)`, lines 70-76. -/
def loadErrorMessage (path : String) (i : Int) : String :=
  "Error when loading " ++ path ++ " (" ++ causeText i ++ ")"

/-- Constructor `DynamicModelDLL::DynamicModelDLL(modName, y_length, j_cols, n_max_lag, n_exog,
ySteady_arg, sExt)`, lines 29-83. The `try` block throws nothing but `int`, so the handler
`catch (...)` of line 79 is never entered. -/
def DynamicModelDLL.construct (windows : Bool) (ld : Loader) (modName : String)
    (y_length j_cols n_max_lag n_exog : Int) (ySteady_arg : Vector) (sExt : String) :
    Run DynamicModelDLL :=
  let path := fName windows modName sExt
  match tryLoad windows ld path with
  | (tr, .ok (h, f)) =>
    { trace := tr,
      result := .ok
        { length := y_length, jcols := j_cols, nMax_lag := n_max_lag, nExog := n_exog,
          ySteady := ySteady_arg, dynamicHinstance := h, Dynamic := f } }
  | (tr, .error i) =>
    { trace := tr, result := .error ⟨77, loadErrorMessage path i⟩ }

/-- Destructor `DynamicModelDLL::~DynamicModelDLL()`, lines 85-94. -/
def DynamicModelDLL.destroy (windows : Bool) (ld : Loader) (s : DynamicModelDLL) : Run Unit :=
  if windows then
    if ld.freeOk s.dynamicHinstance then
      { trace := [Event.dlclose s.dynamicHinstance], result := .ok () }
    else
      { trace := [Event.dlclose s.dynamicHinstance],
        result := .error ⟨90, "Can't free the *_dynamic DLL"⟩ }
  else
    { trace := [Event.dlclose s.dynamicHinstance], result := .ok () }

/-- Life of one object: construction and, when construction succeeded, teardown. C++ runs no
destructor for an object whose constructor threw. -/
def lifecycle (windows : Bool) (ld : Loader) (modName : String)
    (y_length j_cols n_max_lag n_exog : Int) (ySteady_arg : Vector) (sExt : String) :
    List Event :=
  let c := DynamicModelDLL.construct windows ld modName y_length j_cols n_max_lag n_exog
    ySteady_arg sExt
  match c.result with
  | .ok s => c.trace ++ (s.destroy windows ld).trace
  | .error _ => c.trace

/-- Number of times handle `h` is released in a trace. -/
def closeCount (h : Handle) : List Event → Nat
  | [] => 0
  | Event.dlclose k :: t => (if k = h then 1 else 0) + closeCount h t
  | _ :: t => closeCount h t

/-- Whether the trace holds an open that returned handle `h`. -/
def obtained (h : Handle) : List Event → Bool
  | [] => false
  | Event.dlopen _ r :: t => (r == some h) || obtained h t
  | _ :: t => obtained h t

/-! ## Derivation ids of `DynamicModel` (`DynamicModel.hh`, lines 33-37, 149-154, 164-166, 269)

The header declares the two tables and the lookups; the bodies of the lookups and of the
allocation are in a file that is not part of the given sources. -/

/-- Exception `UnknownDerivIDException` of the `throw` clauses at lines 150-154 and 269. -/
inductive UnknownDerivIDException where
  | mk
  deriving DecidableEq, Repr

/-- The type `deriv_id_table_t`, line 33: `map<pair<int, int>, int>`, kept as the list of its
entries, the most recent first. -/
abbrev deriv_id_table_t := List ((Int × Int) × Int)

/-- Lookup `deriv_id_table.find(key)`: the value of the first entry with that key. -/
def deriv_id_table_t.find (key : Int × Int) : deriv_id_table_t → Option Int
  | [] => none
  | (k, d) :: t => if k = key then some d else deriv_id_table_t.find key t

/-- The enumeration `BlockSimulationType`, declared outside the given sources: the code of the
enumerator. -/
abbrev BlockSimulationType := Nat

/-- The type `t_block_type_firstequation_size_mfs`, declared outside the given sources. As the
accessors of lines 302-331 read it, entry `b` is
`((simulation type, first equation), (size, number of feedback variables))` of block `b`; the
three numbers are taken as `int`. -/
abbrev t_block_type_firstequation_size_mfs := List ((BlockSimulationType × Int) × (Int × Int))

/-- The derivation-id members of `DynamicModel`, lines 33-37, and its block members,
lines 191-198. -/
structure DynamicModel where
  /-- Maps a pair (symbol_id, lag) to a deriv ID. -/
  deriv_id_table : deriv_id_table_t := []
  /-- Maps a deriv ID to a pair (symbol_id, lag). -/
  inv_deriv_id_table : List (Int × Int) := []
  /-- Vector of block reordered equations, line 192. -/
  equation_reordered : List Int := []
  /-- Vector of block reordered variables, line 192. -/
  variable_reordered : List Int := []
  /-- Member `inv_equation_reordered`, line 192. -/
  inv_equation_reordered : List Int := []
  /-- Member `inv_variable_reordered`, line 192. -/
  inv_variable_reordered : List Int := []
  /-- Member `block_type_firstequation_size_mfs`, line 198. -/
  block_type_firstequation_size_mfs : t_block_type_firstequation_size_mfs := []
  deriving DecidableEq, Repr

/-- Modelled from the spec: the body of `DynamicModel::getDerivID` (declared at line 269, defined
outside the given sources). The id allocated to the pair, and the unknown-derivative-id condition
for a pair outside the domain. -/
def DynamicModel.getDerivID (m : DynamicModel) (symb_id lag : Int) :
    Except UnknownDerivIDException Int :=
  match m.deriv_id_table.find (symb_id, lag) with
  | some d => .ok d
  | none => .error .mk

/-- Modelled from the spec: the body of `DynamicModel::getSymbIDByDerivID` (declared at line 154,
defined outside the given sources). First component of `lookup(DerivID)`, and the
unknown-derivative-id condition for an id outside the domain. -/
def DynamicModel.getSymbIDByDerivID (m : DynamicModel) (deriv_id : Int) :
    Except UnknownDerivIDException Int :=
  if deriv_id < 0 ∨ (m.inv_deriv_id_table.length : Int) ≤ deriv_id then .error .mk
  else
    match m.inv_deriv_id_table[deriv_id.toNat]? with
    | some p => .ok p.1
    | none => .error .mk

/-- Modelled from the spec: the body of `DynamicModel::getLagByDerivID` (declared at line 152,
defined outside the given sources). Second component of `lookup(DerivID)`, and the
unknown-derivative-id condition for an id outside the domain. -/
def DynamicModel.getLagByDerivID (m : DynamicModel) (deriv_id : Int) :
    Except UnknownDerivIDException Int :=
  if deriv_id < 0 ∨ (m.inv_deriv_id_table.length : Int) ≤ deriv_id then .error .mk
  else
    match m.inv_deriv_id_table[deriv_id.toNat]? with
    | some p => .ok p.2
    | none => .error .mk

/-- Modelled from the spec: the allocation step of `DynamicModel::computeDerivIDs` (declared at
line 166, defined outside the given sources), `allocate(symbol, lag) -> DerivID` of section 4.1.
A pair already in the domain keeps its id; a new pair receives the next dense integer and is
entered in both tables. -/
def DynamicModel.allocate (m : DynamicModel) (symb_id lag : Int) : DynamicModel × Int :=
  match m.deriv_id_table.find (symb_id, lag) with
  | some d => (m, d)
  | none =>
    let deriv_id : Int := m.deriv_id_table.length
    ({ m with
        deriv_id_table := ((symb_id, lag), deriv_id) :: m.deriv_id_table,
        inv_deriv_id_table := m.inv_deriv_id_table ++ [(symb_id, lag)] },
      deriv_id)

/-- Modelled from the spec: the tables after the pairs `vars` have been allocated in turn,
starting from empty tables. -/
def DynamicModel.computeDerivIDs (vars : List (Int × Int)) : DynamicModel :=
  vars.foldl (fun m v => (m.allocate v.1 v.2).1) {}

/-- Coherence of the two tables: they have the same number of entries, and the pair `key` has the
id `d` in `deriv_id_table` exactly when entry `d` of `inv_deriv_id_table` is `key`. -/
def DynamicModel.Coherent (m : DynamicModel) : Prop :=
  m.deriv_id_table.length = m.inv_deriv_id_table.length ∧
    ∀ (key : Int × Int) (d : Int),
      m.deriv_id_table.find key = some d ↔
        (0 ≤ d ∧ m.inv_deriv_id_table[d.toNat]? = some key)

/-! ## Blocks of `DynamicModel` (`DynamicModel.hh`, lines 191-198, 302-391) -/

/-- Element `v[i]` of a `vector` for an `int` index. An index outside the vector is undefined in
C++ and gives `none`. -/
def vectorAt {α : Type} (v : List α) (i : Int) : Option α :=
  if i < 0 then none else v[i.toNat]?

/-- Conversion of an integer to `unsigned int`, the return type of the accessors of
lines 302-331: the value modulo 2^32. -/
def toUnsignedInt (x : Int) : Nat := (x % 4294967296).toNat

/-- Accessor `getNbBlocks()`, lines 303-307. -/
def DynamicModel.getNbBlocks (m : DynamicModel) : Nat :=
  toUnsignedInt m.block_type_firstequation_size_mfs.length

/-- Accessor `getBlockSimulationType(block_number)`, lines 309-313. -/
def DynamicModel.getBlockSimulationType (m : DynamicModel) (block_number : Int) :
    Option BlockSimulationType :=
  (vectorAt m.block_type_firstequation_size_mfs block_number).map (fun e => e.1.1)

/-- Accessor `getBlockFirstEquation(block_number)`, lines 315-319. -/
def DynamicModel.getBlockFirstEquation (m : DynamicModel) (block_number : Int) : Option Nat :=
  (vectorAt m.block_type_firstequation_size_mfs block_number).map
    (fun e => toUnsignedInt e.1.2)

/-- Accessor `getBlockSize(block_number)`, lines 321-325. -/
def DynamicModel.getBlockSize (m : DynamicModel) (block_number : Int) : Option Nat :=
  (vectorAt m.block_type_firstequation_size_mfs block_number).map
    (fun e => toUnsignedInt e.2.1)

/-- Accessor `getBlockMfs(block_number)`, lines 327-331. -/
def DynamicModel.getBlockMfs (m : DynamicModel) (block_number : Int) : Option Nat :=
  (vectorAt m.block_type_firstequation_size_mfs block_number).map
    (fun e => toUnsignedInt e.2.2)

/-- Accessor `getBlockEquationID(block_number, equation_number)`, lines 369-373. -/
def DynamicModel.getBlockEquationID (m : DynamicModel) (block_number equation_number : Int) :
    Option Int :=
  match vectorAt m.block_type_firstequation_size_mfs block_number with
  | some e => vectorAt m.equation_reordered (e.1.2 + equation_number)
  | none => none

/-- Accessor `getBlockVariableID(block_number, variable_number)`, lines 375-379. -/
def DynamicModel.getBlockVariableID (m : DynamicModel) (block_number variable_number : Int) :
    Option Int :=
  match vectorAt m.block_type_firstequation_size_mfs block_number with
  | some e => vectorAt m.variable_reordered (e.1.2 + variable_number)
  | none => none

/-- Accessor `getBlockInitialEquationID(block_number, equation_number)`, lines 381-385. -/
def DynamicModel.getBlockInitialEquationID (m : DynamicModel)
    (block_number equation_number : Int) : Option Int :=
  match vectorAt m.inv_equation_reordered equation_number,
    vectorAt m.block_type_firstequation_size_mfs block_number with
  | some p, some e => some (p - e.1.2)
  | _, _ => none

/-- Accessor `getBlockInitialVariableID(block_number, variable_number)`, lines 387-391. -/
def DynamicModel.getBlockInitialVariableID (m : DynamicModel)
    (block_number variable_number : Int) : Option Int :=
  match vectorAt m.inv_variable_reordered variable_number,
    vectorAt m.block_type_firstequation_size_mfs block_number with
  | some p, some e => some (p - e.1.2)
  | _, _ => none

/-- One strongly connected component handed to the block decomposition: its simulation type, the
original numbers of its equations in solving order, and the size of its feedback set. -/
structure Component where
  simulation_type : BlockSimulationType
  equations : List Int
  mfs : Int
  deriving DecidableEq, Repr

/-- Modelled from the spec: the filling of `block_type_firstequation_size_mfs`, done outside the
given sources. Section 3 makes a block a contiguous range of the reordered index space and
section 4.3 makes the ordered components the block sequence: the components are laid one after
the other from position `first`, each entry recording where its component starts and how many
equations it holds. -/
def layBlocks (first : Int) : List Component → t_block_type_firstequation_size_mfs
  | [] => []
  | c :: rest =>
    ((c.simulation_type, first), ((c.equations.length : Int), c.mfs))
      :: layBlocks (first + c.equations.length) rest

/-- Modelled from the spec: the outcome of the block decomposition of section 4.3 on the model,
for the ordered components `components`: `equation_reordered` lists their equations block after
block, and the block table is laid from position 0. -/
def DynamicModel.computeBlockDecomposition (m : DynamicModel) (components : List Component) :
    DynamicModel :=
  { m with
    equation_reordered := (components.map Component.equations).flatten,
    block_type_firstequation_size_mfs := layBlocks 0 components }

/-- Position of the reordered range at which component `b` starts: the number of equations of
the components before it. -/
def blockStart : List Component → Nat → Nat
  | [], _ => 0
  | _ :: _, 0 => 0
  | c :: rest, b + 1 => c.equations.length + blockStart rest b

/-- Whether `g` undoes `f` on every position of `f`: entry `p` of `f` is an index of `g`, and `g`
holds `p` there. -/
def undoes (f g : List Int) : Bool :=
  (List.range f.length).all fun p =>
    match f[p]? with
    | some e => decide (0 ≤ e) && (g[e.toNat]? == some (p : Int))
    | none => false

/-- Whether `f` and `g` are permutations of the same index range and inverse of each other. -/
def inversePermutations (f g : List Int) : Bool :=
  decide (f.length = g.length) && undoes f g && undoes g f

/-! ## Memory reached by a call of `eval`

Every pointer handed to `Dynamic` is a `double *`, the `const` of the wrapper's arguments and of
its own `ySteady` being cast away at lines 100 and 117-128: the loaded function is able to write
through each of them. What it does write is its own matter, and is a parameter here. -/

/-- A wrapper for a model with one equation, three Jacobian columns, maximum lag 1 and two
exogenous variables, bound to the function at address 7 of the unit with handle 1. -/
def sampleDLL : DynamicModelDLL :=
  { length := 1, jcols := 3, nMax_lag := 1, nExog := 2, ySteady := ⟨[4]⟩,
    dynamicHinstance := 1, Dynamic := 7 }

/-- A vector `y` of the length `jcols - nExog` of `sampleDLL`. -/
def sampleY : Vector := ⟨[5]⟩

/-- A vector `y` of a length other than `jcols - nExog` of `sampleDLL`. -/
def longY : Vector := ⟨[5, 6]⟩

/-- A parameter vector. -/
def sampleParams : Vector := ⟨[8, 9]⟩

/-- A residual vector. -/
def sampleResidual : Vector := ⟨[3]⟩

/-- An exogenous matrix with one row and five columns, where `sampleDLL` declares two
exogenous variables. -/
def wideX : TwoDMatrix := { rows := 1, cols := 5, data := [1, 2, 3, 4, 5] }

/-- An exogenous matrix with three rows and two columns. -/
def tallX : TwoDMatrix := { rows := 3, cols := 2, data := [1, 2, 3, 4, 5, 6] }

/-- A Jacobian buffer with as many rows as `sampleDLL` has equations. -/
def sampleG1 : TwoDMatrix := { rows := 1, cols := 3, data := [11, 12, 13] }

/-- A second-derivative buffer. -/
def sampleG2 : TwoDMatrix := { rows := 1, cols := 9, data := [21, 22] }

/-- A wrapper for a model with maximum lag 1 and three exogenous variables. -/
def threeExoDLL : DynamicModelDLL :=
  { length := 1, jcols := 4, nMax_lag := 1, nExog := 3, ySteady := ⟨[4]⟩,
    dynamicHinstance := 1, Dynamic := 7 }

/-- Three ordered components of a model with six equations. -/
def sampleComponents : List Component :=
  [⟨1, [2, 0], 0⟩, ⟨2, [1], 0⟩, ⟨3, [4, 3, 5], 1⟩]

/-- The model decomposed into `sampleComponents`, its variables reordered like its equations,
with the inverse vectors. -/
def sampleBlockModel : DynamicModel :=
  { ({} : DynamicModel).computeBlockDecomposition sampleComponents with
    variable_reordered := [2, 0, 1, 4, 3, 5],
    inv_equation_reordered := [1, 2, 0, 4, 3, 5],
    inv_variable_reordered := [1, 2, 0, 4, 3, 5] }

/-- A loader on which every open returns the handle 1 while `dlerror()` still reports an
error, and every lookup finds the address 7. -/
def staleLoader : Loader :=
  { dlopen := fun _ => some 1, openErr := fun _ => true,
    dlsym := fun _ _ => some 7, symErr := fun _ _ => false, freeOk := fun _ => true }

/-- A loader that opens `./m_dynamic.so` as handle 1 and finds `Dynamic` in it at address 7. -/
def goodLoader : Loader :=
  { dlopen := fun path => if path = "./m_dynamic.so" then some 1 else none,
    openErr := fun _ => false,
    dlsym := fun _ name => if name = "Dynamic" then some 7 else none,
    symErr := fun _ _ => false, freeOk := fun _ => true }

/-- A loader that opens any unit as handle 1 and finds no symbol in it. -/
def noSymbolLoader : Loader :=
  { dlopen := fun _ => some 1, openErr := fun _ => false,
    dlsym := fun _ _ => none, symErr := fun _ _ => true, freeOk := fun _ => true }

/-! ## The matrix-based `eval`: what is tested and what is called -/

/-- When `y` has the length `jcols - nExog` and `g1`, if given, has `length` rows, the
matrix-based `eval` makes the one call of line 130 and returns. -/
theorem eval_it_sizes_ok (s : DynamicModelDLL) (y : Vector) (x : TwoDMatrix) (p : Vector)
    (it_ : Int) (r : Vector) (g1 g2 g3 : Option TwoDMatrix)
    (hy : s.jcols - s.nExog = y.length) (hg : ∀ m, g1 = some m → m.nrows = s.length) :
    s.eval_it y x p it_ r g1 g2 g3 =
      { trace := [Event.call s.Dynamic
          ⟨y.base, x.base, s.nExog, p.base, s.ySteady.base, it_, r.base,
            g1.bind TwoDMatrix.base, g2.bind TwoDMatrix.base, g3.bind TwoDMatrix.base⟩],
        result := .ok () } := by
  unfold DynamicModelDLL.eval_it
  rw [if_neg (not_not.mpr hy)]
  cases g1 with
  | none => cases g2 <;> cases g3 <;> rfl
  | some m =>
    have hm : m.nrows = s.length := hg m rfl
    simp only [hm, ne_eq, not_true_eq_false, if_false]
    cases g2 <;> cases g3 <;> rfl

/-- When `y` has not the length `jcols - nExog`, the matrix-based `eval` throws at line 111
before anything else. -/
theorem eval_it_y_wrong (s : DynamicModelDLL) (y : Vector) (x : TwoDMatrix) (p : Vector)
    (it_ : Int) (r : Vector) (g1 g2 g3 : Option TwoDMatrix)
    (hy : s.jcols - s.nExog ≠ y.length) :
    s.eval_it y x p it_ r g1 g2 g3 =
      { trace := [], result := .error ⟨111, "DLL Error: (jcols-nExog)!=ys.length()"⟩ } := by
  unfold DynamicModelDLL.eval_it
  rw [if_pos hy]

/-- When `y` has the right length and `g1` is given with a row count other than `length`, the
matrix-based `eval` throws at line 116. -/
theorem eval_it_g1_wrong (s : DynamicModelDLL) (y : Vector) (x : TwoDMatrix) (p : Vector)
    (it_ : Int) (r : Vector) (m : TwoDMatrix) (g2 g3 : Option TwoDMatrix)
    (hy : s.jcols - s.nExog = y.length) (hm : m.nrows ≠ s.length) :
    s.eval_it y x p it_ r (some m) g2 g3 =
      { trace := [], result := .error ⟨116, "DLL Error: g1 has wrong size"⟩ } := by
  unfold DynamicModelDLL.eval_it
  rw [if_neg (not_not.mpr hy)]
  simp only [hm, ne_eq, not_false_eq_true, if_true]

/-- The outcome of the matrix-based `eval` does not depend on the exogenous matrix, and its
trace depends on it only through the pointer handed over. -/
theorem eval_it_result_indep_x (s : DynamicModelDLL) (y : Vector) (x x2 : TwoDMatrix)
    (p : Vector) (it_ : Int) (r : Vector) (g1 g2 g3 : Option TwoDMatrix) :
    (s.eval_it y x p it_ r g1 g2 g3).result = (s.eval_it y x2 p it_ r g1 g2 g3).result := by
  by_cases hy : s.jcols - s.nExog = y.length
  · cases g1 with
    | none =>
      rw [eval_it_sizes_ok s y x p it_ r none g2 g3 hy (by simp),
        eval_it_sizes_ok s y x2 p it_ r none g2 g3 hy (by simp)]
    | some m =>
      by_cases hm : m.nrows = s.length
      · rw [eval_it_sizes_ok s y x p it_ r (some m) g2 g3 hy (by simpa using hm),
          eval_it_sizes_ok s y x2 p it_ r (some m) g2 g3 hy (by simpa using hm)]
      · rw [eval_it_g1_wrong s y x p it_ r m g2 g3 hy hm,
          eval_it_g1_wrong s y x2 p it_ r m g2 g3 hy hm]
  · rw [eval_it_y_wrong s y x p it_ r g1 g2 g3 hy, eval_it_y_wrong s y x2 p it_ r g1 g2 g3 hy]

/-! ## C1 -/

/-- C1, counterexample: with two declared exogenous variables and an exogenous matrix of five
columns, the matrix-based `eval` raises nothing and calls `Dynamic`. -/
theorem C1_counterexample :
    wideX.ncols ≠ sampleDLL.nExog ∧
      (sampleDLL.eval_it sampleY wideX sampleParams 0 sampleResidual none none none).raised
        = false ∧
      (sampleDLL.eval_it sampleY wideX sampleParams 0 sampleResidual none none none).trace
        = [Event.call 7 ⟨some [5], some [1, 2, 3, 4, 5], 2, some [8, 9], some [4], 0, some [3],
            none, none, none⟩] := by
  refine ⟨by decide, rfl, rfl⟩

/-- C1, amended: for every call of the matrix-based `eval`, if `jcols - nExog` differs from the
length of `y`, the call fails with a size-mismatch `DynareException` instead of invoking
`Dynamic`; the number of columns of `x` is not tested, and replacing `x` by any other matrix
leaves the outcome (return or exception) as it is. -/
theorem C1_y_size_mismatch (s : DynamicModelDLL) (y : Vector) (x x2 : TwoDMatrix) (p : Vector)
    (it_ : Int) (r : Vector) (g1 g2 g3 : Option TwoDMatrix) :
    (s.jcols - s.nExog ≠ y.length →
        (s.eval_it y x p it_ r g1 g2 g3).result
            = .error ⟨111, "DLL Error: (jcols-nExog)!=ys.length()"⟩ ∧
          (s.eval_it y x p it_ r g1 g2 g3).trace = []) ∧
      (s.eval_it y x2 p it_ r g1 g2 g3).result = (s.eval_it y x p it_ r g1 g2 g3).result := by
  refine ⟨fun hy => ?_, eval_it_result_indep_x s y x2 x p it_ r g1 g2 g3⟩
  rw [eval_it_y_wrong s y x p it_ r g1 g2 g3 hy]
  exact ⟨rfl, rfl⟩

/-- C1, witness: `sampleDLL` has `jcols - nExog = 1` and `longY` has two cells. -/
theorem C1_y_size_mismatch_witness :
    sampleDLL.jcols - sampleDLL.nExog ≠ longY.length ∧
      (sampleDLL.eval_it longY tallX sampleParams 0 sampleResidual none none none).result
        = .error ⟨111, "DLL Error: (jcols-nExog)!=ys.length()"⟩ :=
  ⟨by decide,
    ((C1_y_size_mismatch sampleDLL longY tallX wideX sampleParams 0 sampleResidual none none
      none).1 (by decide)).1⟩

/-! ## C2 -/

/-- The row count handed to `Dynamic` by the matrix-based `eval` is `nExog`, whatever the rows
of `x`; the pointer-based `eval` hands over the `nb_row_x` it was given. -/
theorem eval_row_count (s : DynamicModelDLL) (y : Vector) (x : TwoDMatrix) (p : Vector)
    (it_ : Int) (r : Vector) (g1 g2 g3 : Option TwoDMatrix) (dy dx dp dr d1 d2 d3 : DoublePtr)
    (nb_row_x : Int) :
    (∀ a ∈ dynamicCalls (s.eval_it y x p it_ r g1 g2 g3).trace, a.nb_row_x = s.nExog) ∧
      (dynamicCalls (s.eval_ptr dy dx nb_row_x dp it_ dr d1 d2 d3).trace).map
        DynamicArgs.nb_row_x = [nb_row_x] := by
  refine ⟨fun a ha => ?_, rfl⟩
  by_cases hy : s.jcols - s.nExog = y.length
  · cases g1 with
    | none =>
      rw [eval_it_sizes_ok s y x p it_ r none g2 g3 hy (by simp)] at ha
      simp only [dynamicCalls, List.mem_singleton] at ha
      rw [ha]
    | some m =>
      by_cases hm : m.nrows = s.length
      · rw [eval_it_sizes_ok s y x p it_ r (some m) g2 g3 hy (by simpa using hm)] at ha
        simp only [dynamicCalls, List.mem_singleton] at ha
        rw [ha]
      · rw [eval_it_g1_wrong s y x p it_ r m g2 g3 hy hm] at ha
        simp [dynamicCalls] at ha
  · rw [eval_it_y_wrong s y x p it_ r g1 g2 g3 hy] at ha
    simp [dynamicCalls] at ha

/-- C2, the code at the failing input: an exogenous matrix of three rows is supplied to a wrapper
declaring two exogenous variables, and `Dynamic` receives the row count 2, from the
time-indexed overload and from the one without time index alike; the vector-based overload of a
wrapper with maximum lag 1 and three exogenous variables builds a matrix of two rows and hands
over the row count 3. -/
theorem C2_row_count_is_nExog :
    tallX.nrows = 3 ∧ sampleDLL.nExog = 2 ∧
      (dynamicCalls
        (sampleDLL.eval_it sampleY tallX sampleParams 0 sampleResidual none none none).trace).map
          DynamicArgs.nb_row_x = [2] ∧
      (dynamicCalls
        (sampleDLL.eval_mat sampleY tallX sampleParams sampleResidual none none none).trace).map
          DynamicArgs.nb_row_x = [2] ∧
      (TwoDMatrix.create (threeExoDLL.nMax_lag + 1) threeExoDLL.nExog).zeros.nrows = 2 ∧
      (dynamicCalls
        (threeExoDLL.eval_vec sampleY sampleY sampleParams sampleResidual none none none).trace).map
          DynamicArgs.nb_row_x = [3] := by
  refine ⟨rfl, rfl, rfl, rfl, rfl, rfl⟩

/-! ## C3 -/

/-- The trace of the matrix-based `eval`: nothing when it raises, the call of line 130
otherwise. -/
theorem eval_it_trace (s : DynamicModelDLL) (y : Vector) (x : TwoDMatrix) (p : Vector)
    (it_ : Int) (r : Vector) (g1 g2 g3 : Option TwoDMatrix) :
    (s.eval_it y x p it_ r g1 g2 g3).trace =
      if (s.eval_it y x p it_ r g1 g2 g3).raised = true then []
      else [Event.call s.Dynamic
        ⟨y.base, x.base, s.nExog, p.base, s.ySteady.base, it_, r.base,
          g1.bind TwoDMatrix.base, g2.bind TwoDMatrix.base, g3.bind TwoDMatrix.base⟩] := by
  by_cases hy : s.jcols - s.nExog = y.length
  · cases g1 with
    | none =>
      rw [eval_it_sizes_ok s y x p it_ r none g2 g3 hy (by simp)]
      simp [Run.raised]
    | some m =>
      by_cases hm : m.nrows = s.length
      · rw [eval_it_sizes_ok s y x p it_ r (some m) g2 g3 hy (by simpa using hm)]
        simp [Run.raised]
      · rw [eval_it_g1_wrong s y x p it_ r m g2 g3 hy hm]
        simp [Run.raised]
  · rw [eval_it_y_wrong s y x p it_ r g1 g2 g3 hy]
    simp [Run.raised]

/-- C3: each overload without time index is the time-indexed `eval` at `it_ = nMax_lag` (the
vector one on the zero matrix it builds), with the same outcome and the same trace: when a call
of `Dynamic` is made it is the single one, with `it_ = nMax_lag` and the bases of the given `y`,
parameters, residual, `g1`, `g2` and `g3`. -/
theorem C3_no_time_index (s : DynamicModelDLL) (y : Vector) (x : TwoDMatrix) (xv : Vector)
    (p : Vector) (r : Vector) (g1 g2 g3 : Option TwoDMatrix) :
    s.eval_mat y x p r g1 g2 g3 = s.eval_it y x p s.nMax_lag r g1 g2 g3 ∧
      s.eval_vec y xv p r g1 g2 g3
        = s.eval_it y (TwoDMatrix.create (s.nMax_lag + 1) s.nExog).zeros p s.nMax_lag r
            g1 g2 g3 ∧
      (s.eval_mat y x p r g1 g2 g3).trace =
        (if (s.eval_mat y x p r g1 g2 g3).raised = true then []
         else [Event.call s.Dynamic
          ⟨y.base, x.base, s.nExog, p.base, s.ySteady.base, s.nMax_lag, r.base,
            g1.bind TwoDMatrix.base, g2.bind TwoDMatrix.base, g3.bind TwoDMatrix.base⟩]) ∧
      (s.eval_vec y xv p r g1 g2 g3).trace =
        (if (s.eval_vec y xv p r g1 g2 g3).raised = true then []
         else [Event.call s.Dynamic
          ⟨y.base, (TwoDMatrix.create (s.nMax_lag + 1) s.nExog).zeros.base, s.nExog, p.base,
            s.ySteady.base, s.nMax_lag, r.base,
            g1.bind TwoDMatrix.base, g2.bind TwoDMatrix.base, g3.bind TwoDMatrix.base⟩]) := by
  refine ⟨rfl, rfl, ?_, ?_⟩
  · exact eval_it_trace s y x p s.nMax_lag r g1 g2 g3
  · exact eval_it_trace s y (TwoDMatrix.create (s.nMax_lag + 1) s.nExog).zeros p s.nMax_lag r
      g1 g2 g3

/-! ## C4 -/

/-- The matrix built at lines 148-149 has the dimensions asked for and holds zeros only. -/
theorem zeros_create (r c : Int) :
    (TwoDMatrix.create r c).zeros
      = { rows := r, cols := c, data := List.replicate (r * c).toNat 0 } := by
  simp [TwoDMatrix.create, TwoDMatrix.zeros]

/-- C4: the vector-based `eval` hands to `Dynamic` the base of a matrix with `nMax_lag + 1` rows,
`nExog` columns and zeros in all its `(nMax_lag + 1) * nExog` cells, and the vector `x` it is
given has no part in it: two calls that differ only in `x` have the same outcome and the same
trace. -/
theorem C4_vec_ignores_x (s : DynamicModelDLL) (y : Vector) (xv xv2 : Vector) (p : Vector)
    (r : Vector) (g1 g2 g3 : Option TwoDMatrix) :
    s.eval_vec y xv p r g1 g2 g3 = s.eval_vec y xv2 p r g1 g2 g3 ∧
      (TwoDMatrix.create (s.nMax_lag + 1) s.nExog).zeros.nrows = s.nMax_lag + 1 ∧
      (TwoDMatrix.create (s.nMax_lag + 1) s.nExog).zeros.ncols = s.nExog ∧
      (TwoDMatrix.create (s.nMax_lag + 1) s.nExog).zeros.data
        = List.replicate ((s.nMax_lag + 1) * s.nExog).toNat 0 ∧
      (dynamicCalls (s.eval_vec y xv p r g1 g2 g3).trace).map DynamicArgs.x =
        (if (s.eval_vec y xv p r g1 g2 g3).raised = true then []
         else [some (List.replicate ((s.nMax_lag + 1) * s.nExog).toNat 0)]) := by
  refine ⟨rfl, ?_, ?_, ?_, ?_⟩
  · rw [zeros_create]; rfl
  · rw [zeros_create]; rfl
  · rw [zeros_create]
  · have ht := eval_it_trace s y (TwoDMatrix.create (s.nMax_lag + 1) s.nExog).zeros p
      s.nMax_lag r g1 g2 g3
    change (s.eval_vec y xv p r g1 g2 g3).trace
      = if (s.eval_vec y xv p r g1 g2 g3).raised = true then [] else _ at ht
    rw [ht]
    split <;> simp [dynamicCalls, zeros_create, TwoDMatrix.base]

/-! ## C5 -/

/-- C5: every call of `Dynamic` made by the matrix-based `eval` receives, for each of `g1`, `g2`
and `g3`, the null pointer exactly when the caller gave a null pointer for that output and the
base of the caller's matrix otherwise, and receives the base of the caller's residual vector. -/
theorem C5_output_pointers (s : DynamicModelDLL) (y : Vector) (x : TwoDMatrix) (p : Vector)
    (it_ : Int) (r : Vector) (g1 g2 g3 : Option TwoDMatrix) (a : DynamicArgs)
    (ha : a ∈ dynamicCalls (s.eval_it y x p it_ r g1 g2 g3).trace) :
    ((a.g1 = none ↔ g1 = none) ∧ ∀ m, g1 = some m → a.g1 = m.base) ∧
      ((a.g2 = none ↔ g2 = none) ∧ ∀ m, g2 = some m → a.g2 = m.base) ∧
      ((a.g3 = none ↔ g3 = none) ∧ ∀ m, g3 = some m → a.g3 = m.base) ∧
      a.residual = r.base := by
  rw [eval_it_trace] at ha
  split at ha
  · simp [dynamicCalls] at ha
  · simp only [dynamicCalls, List.mem_singleton] at ha
    subst ha
    refine ⟨?_, ?_, ?_, rfl⟩
    · cases g1 <;> simp [TwoDMatrix.base]
    · cases g2 <;> simp [TwoDMatrix.base]
    · cases g3 <;> simp [TwoDMatrix.base]

/-- C5, witness: `g1` and `g2` given, `g3` null. -/
theorem C5_output_pointers_witness :
    (⟨some [5], some [1, 2, 3, 4, 5, 6], 2, some [8, 9], some [4], 0, some [3],
        some [11, 12, 13], some [21, 22], none⟩ : DynamicArgs)
      ∈ dynamicCalls (sampleDLL.eval_it sampleY tallX sampleParams 0 sampleResidual
          (some sampleG1) (some sampleG2) none).trace ∧
    (((some [11, 12, 13] : DoublePtr) = none ↔ some sampleG1 = none) ∧
        ∀ m, some sampleG1 = some m → (some [11, 12, 13] : DoublePtr) = m.base) ∧
      (((some [21, 22] : DoublePtr) = none ↔ some sampleG2 = none) ∧
        ∀ m, some sampleG2 = some m → (some [21, 22] : DoublePtr) = m.base) ∧
      (((none : DoublePtr) = none ↔ (none : Option TwoDMatrix) = none) ∧
        ∀ m, (none : Option TwoDMatrix) = some m → (none : DoublePtr) = m.base) ∧
      (some [3] : DoublePtr) = sampleResidual.base :=
  ⟨by decide,
    C5_output_pointers sampleDLL sampleY tallX sampleParams 0 sampleResidual (some sampleG1)
      (some sampleG2) none
      ⟨some [5], some [1, 2, 3, 4, 5, 6], 2, some [8, 9], some [4], 0, some [3],
        some [11, 12, 13], some [21, 22], none⟩ (by decide)⟩

/-! ## C6 -/

/-- C6: the matrix-based `eval` raises a `DynareException` exactly when `jcols - nExog` differs
from the length of `y`, or `g1` is given and its row count differs from `length`; when it raises
its trace is empty, so `Dynamic` was not called, and when it does not raise its trace is one call
of the bound `Dynamic`. -/
theorem C6_raises_iff (s : DynamicModelDLL) (y : Vector) (x : TwoDMatrix) (p : Vector)
    (it_ : Int) (r : Vector) (g1 g2 g3 : Option TwoDMatrix) :
    ((s.eval_it y x p it_ r g1 g2 g3).raised = true ↔
        (s.jcols - s.nExog ≠ y.length ∨ ∃ m, g1 = some m ∧ m.nrows ≠ s.length)) ∧
      ((s.eval_it y x p it_ r g1 g2 g3).raised = true →
        (s.eval_it y x p it_ r g1 g2 g3).trace = []) ∧
      ((s.eval_it y x p it_ r g1 g2 g3).raised = false →
        (s.eval_it y x p it_ r g1 g2 g3).result = .ok () ∧
        ∃ a, (s.eval_it y x p it_ r g1 g2 g3).trace = [Event.call s.Dynamic a]) := by
  by_cases hy : s.jcols - s.nExog = y.length
  · cases g1 with
    | none =>
      rw [eval_it_sizes_ok s y x p it_ r none g2 g3 hy (by simp)]
      simp [Run.raised, hy]
    | some m =>
      by_cases hm : m.nrows = s.length
      · rw [eval_it_sizes_ok s y x p it_ r (some m) g2 g3 hy (by simpa using hm)]
        simp [Run.raised, hy, hm]
      · rw [eval_it_g1_wrong s y x p it_ r m g2 g3 hy hm]
        simp [Run.raised, hy, hm]
  · rw [eval_it_y_wrong s y x p it_ r g1 g2 g3 hy]
    simp [Run.raised, hy]

/-! ## Construction: C7, C8 -/

/-- The `try` block of the constructor, case by case: when the open fails or is followed by an
error report it throws 1 and nothing is closed; when the lookup fails or is followed by an error
report it closes the handle and throws 2; otherwise it leaves the handle and the address. -/
theorem tryLoad_cases (windows : Bool) (ld : Loader) (path : String) :
    (ld.dlopen path = none ∧ tryLoad windows ld path = ([Event.dlopen path none], .error 1)) ∨
    (∃ h, ld.dlopen path = some h ∧ windows = false ∧ ld.openErr path = true ∧
        tryLoad windows ld path = ([Event.dlopen path (some h)], .error 1)) ∨
    (∃ h, ld.dlopen path = some h ∧ (windows = true ∨ ld.openErr path = false) ∧
        (ld.dlsym h "Dynamic" = none ∨ (windows = false ∧ ld.symErr h "Dynamic" = true)) ∧
        tryLoad windows ld path =
          ([Event.dlopen path (some h), Event.dlsym h "Dynamic" (ld.dlsym h "Dynamic"),
            Event.dlclose h], .error 2)) ∨
    (∃ h f, ld.dlopen path = some h ∧ (windows = true ∨ ld.openErr path = false) ∧
        ld.dlsym h "Dynamic" = some f ∧ (windows = true ∨ ld.symErr h "Dynamic" = false) ∧
        tryLoad windows ld path =
          ([Event.dlopen path (some h), Event.dlsym h "Dynamic" (some f)], .ok (h, f))) := by
  unfold tryLoad
  cases windows <;> cases ho : ld.dlopen path <;> simp
  · cases he : ld.openErr path <;> simp
    rename_i h
    cases hs : ld.dlsym h "Dynamic" <;> simp
  · rename_i h
    cases hs : ld.dlsym h "Dynamic" <;> simp

/-- The constructor when its `try` block runs to the end. -/
theorem construct_of_tryLoad_ok (windows : Bool) (ld : Loader) (modName : String)
    (y_length j_cols n_max_lag n_exog : Int) (ySteady_arg : Vector) (sExt : String)
    (tr : List Event) (h : Handle) (f : DynamicFn)
    (ht : tryLoad windows ld (fName windows modName sExt) = (tr, .ok (h, f))) :
    DynamicModelDLL.construct windows ld modName y_length j_cols n_max_lag n_exog ySteady_arg
        sExt =
      { trace := tr,
        result := .ok
          { length := y_length, jcols := j_cols, nMax_lag := n_max_lag, nExog := n_exog,
            ySteady := ySteady_arg, dynamicHinstance := h, Dynamic := f } } := by
  unfold DynamicModelDLL.construct
  simp only [ht]

/-- The constructor when its `try` block throws `i`. -/
theorem construct_of_tryLoad_error (windows : Bool) (ld : Loader) (modName : String)
    (y_length j_cols n_max_lag n_exog : Int) (ySteady_arg : Vector) (sExt : String)
    (tr : List Event) (i : Int)
    (ht : tryLoad windows ld (fName windows modName sExt) = (tr, .error i)) :
    DynamicModelDLL.construct windows ld modName y_length j_cols n_max_lag n_exog ySteady_arg
        sExt =
      { trace := tr,
        result := .error ⟨77, loadErrorMessage (fName windows modName sExt) i⟩ } := by
  unfold DynamicModelDLL.construct
  simp only [ht]

/-- C7, counterexample: on a non-Windows build the open returns a handle and the unit holds the
symbol `Dynamic`, yet, `dlerror()` reporting an error after the open, construction fails. -/
theorem C7_counterexample :
    staleLoader.dlopen (fName false "m" ".so") = some 1 ∧
      staleLoader.dlsym 1 "Dynamic" = some 7 ∧
      (DynamicModelDLL.construct false staleLoader "m" 1 3 1 2 ⟨[4]⟩ ".so").raised = true := by
  refine ⟨rfl, rfl, rfl⟩

/-- C7, amended: construction fails with a `DynareException` exactly when the open returns a null
handle, or the lookup of `Dynamic` in the opened unit returns a null address, or, on non-Windows
builds, `dlerror()` reports an error after the open or after the lookup; otherwise construction
succeeds after one open and one lookup, the object holding the handle of that open and, as
`Dynamic`, the address resolved by that lookup. -/
theorem C7_construct_fails_iff (windows : Bool) (ld : Loader) (modName : String)
    (y_length j_cols n_max_lag n_exog : Int) (ySteady_arg : Vector) (sExt : String) :
    ((DynamicModelDLL.construct windows ld modName y_length j_cols n_max_lag n_exog ySteady_arg
        sExt).raised = true ↔
      (ld.dlopen (fName windows modName sExt) = none ∨
        (windows = false ∧ ld.openErr (fName windows modName sExt) = true) ∨
        ∃ h, ld.dlopen (fName windows modName sExt) = some h ∧
          (ld.dlsym h "Dynamic" = none ∨ (windows = false ∧ ld.symErr h "Dynamic" = true)))) ∧
    ((DynamicModelDLL.construct windows ld modName y_length j_cols n_max_lag n_exog ySteady_arg
        sExt).raised = false →
      ∃ h f, ld.dlopen (fName windows modName sExt) = some h ∧ ld.dlsym h "Dynamic" = some f ∧
        DynamicModelDLL.construct windows ld modName y_length j_cols n_max_lag n_exog ySteady_arg
            sExt =
          { trace := [Event.dlopen (fName windows modName sExt) (some h),
              Event.dlsym h "Dynamic" (some f)],
            result := .ok
              { length := y_length, jcols := j_cols, nMax_lag := n_max_lag, nExog := n_exog,
                ySteady := ySteady_arg, dynamicHinstance := h, Dynamic := f } }) := by
  rcases tryLoad_cases windows ld (fName windows modName sExt) with
    ⟨ho, ht⟩ | ⟨h, ho, hw, he, ht⟩ | ⟨h, ho, he, hs, ht⟩ | ⟨h, f, ho, he, hs, hse, ht⟩
  · rw [construct_of_tryLoad_error _ _ _ _ _ _ _ _ _ _ _ ht]
    simp [ho, Run.raised]
  · rw [construct_of_tryLoad_error _ _ _ _ _ _ _ _ _ _ _ ht]
    refine ⟨⟨fun _ => Or.inr (Or.inl ⟨hw, he⟩), fun _ => rfl⟩, fun hc => ?_⟩
    exact absurd hc (by simp [Run.raised])
  · rw [construct_of_tryLoad_error _ _ _ _ _ _ _ _ _ _ _ ht]
    refine ⟨⟨fun _ => Or.inr (Or.inr ⟨h, ho, hs⟩), fun _ => rfl⟩, fun hc => ?_⟩
    exact absurd hc (by simp [Run.raised])
  · rw [construct_of_tryLoad_ok _ _ _ _ _ _ _ _ _ _ _ _ ht]
    refine ⟨⟨fun hc => absurd hc (by simp [Run.raised]), fun hc => ?_⟩,
      fun _ => ⟨h, f, ho, hs, rfl⟩⟩
    rcases hc with hc | ⟨hw, hc⟩ | ⟨h2, h2eq, hc⟩
    · rw [ho] at hc; exact absurd hc (by simp)
    · rcases he with he | he
      · rw [hw] at he; exact absurd he (by simp)
      · rw [hc] at he; exact absurd he (by simp)
    · have hh : h = h2 := by rw [ho] at h2eq; simpa using h2eq
      subst hh
      rcases hc with hc | ⟨hw, hc⟩
      · rw [hs] at hc; exact absurd hc (by simp)
      · rcases hse with hse | hse
        · rw [hw] at hse; exact absurd hse (by simp)
        · rw [hc] at hse; exact absurd hse (by simp)

/-- C7, witness: the unit `./m_dynamic.so` opens and holds `Dynamic`. -/
theorem C7_construct_fails_iff_witness :
    (DynamicModelDLL.construct false goodLoader "m" 1 3 1 2 ⟨[4]⟩ ".so").raised = false ∧
      ∃ h f, goodLoader.dlopen (fName false "m" ".so") = some h ∧
        goodLoader.dlsym h "Dynamic" = some f ∧
        DynamicModelDLL.construct false goodLoader "m" 1 3 1 2 ⟨[4]⟩ ".so" =
          { trace := [Event.dlopen (fName false "m" ".so") (some h),
              Event.dlsym h "Dynamic" (some f)],
            result := .ok
              { length := 1, jcols := 3, nMax_lag := 1, nExog := 2,
                ySteady := ⟨[4]⟩, dynamicHinstance := h, Dynamic := f } } :=
  ⟨rfl, (C7_construct_fails_iff false goodLoader "m" 1 3 1 2 ⟨[4]⟩ ".so").2 rfl⟩

/-- C8, counterexample: on a non-Windows build the open returns the handle 1 and `dlerror()`
reports an error after it; the unit did open, and the message gives as the cause that the file
cannot be loaded. -/
theorem C8_counterexample :
    staleLoader.dlopen (fName false "m" ".so") = some 1 ∧
      (DynamicModelDLL.construct false staleLoader "m" 1 3 1 2 ⟨[4]⟩ ".so").result =
        .error ⟨77, "Error when loading ./m_dynamic.so (can't dynamically load the file)"⟩ := by
  refine ⟨rfl, rfl⟩

/-- C8, amended: whenever construction fails, the message is `Error when loading `, the attempted
path, and a cause between brackets; the path is the model name followed by `_dynamic` and `sExt`,
with `./` before it on non-Windows builds; the cause is that the file cannot be loaded exactly
when the open returned a null handle or, on non-Windows builds, `dlerror()` reported an error
after the open, and that the symbol cannot be located exactly when the open returned a handle
with no error reported and the lookup returned a null address or, on non-Windows builds, was
followed by an error report. -/
theorem C8_load_error_message (windows : Bool) (ld : Loader) (modName : String)
    (y_length j_cols n_max_lag n_exog : Int) (ySteady_arg : Vector) (sExt : String)
    (e : DynareException)
    (he : (DynamicModelDLL.construct windows ld modName y_length j_cols n_max_lag n_exog
      ySteady_arg sExt).result = .error e) :
    fName windows modName sExt
        = (if windows then "" else "./") ++ (modName ++ "_dynamic" ++ sExt) ∧
      ∃ cause,
        e.message = "Error when loading " ++ fName windows modName sExt ++ " (" ++ cause ++ ")" ∧
        (cause = "can't dynamically load the file" ↔
          (ld.dlopen (fName windows modName sExt) = none ∨
            (windows = false ∧ ld.openErr (fName windows modName sExt) = true))) ∧
        (cause = "can't locate the 'Dynamic' symbol" ↔
          ∃ h, ld.dlopen (fName windows modName sExt) = some h ∧
            (windows = true ∨ ld.openErr (fName windows modName sExt) = false) ∧
            (ld.dlsym h "Dynamic" = none ∨
              (windows = false ∧ ld.symErr h "Dynamic" = true))) := by
  refine ⟨rfl, ?_⟩
  rcases tryLoad_cases windows ld (fName windows modName sExt) with
    ⟨ho, ht⟩ | ⟨h, ho, hw, hoe, ht⟩ | ⟨h, ho, hoe, hs, ht⟩ | ⟨h, f, ho, hoe, hs, hse, ht⟩
  · rw [construct_of_tryLoad_error _ _ _ _ _ _ _ _ _ _ _ ht] at he
    have hmsg : e = ⟨77, loadErrorMessage (fName windows modName sExt) 1⟩ := by
      simpa using he.symm
    refine ⟨"can't dynamically load the file", by rw [hmsg]; rfl, ?_, ?_⟩
    · exact ⟨fun _ => Or.inl ho, fun _ => rfl⟩
    · refine ⟨fun hc => absurd hc (by decide), fun hc => ?_⟩
      obtain ⟨h, hh, _⟩ := hc
      rw [ho] at hh
      exact absurd hh (by simp)
  · rw [construct_of_tryLoad_error _ _ _ _ _ _ _ _ _ _ _ ht] at he
    have hmsg : e = ⟨77, loadErrorMessage (fName windows modName sExt) 1⟩ := by
      simpa using he.symm
    refine ⟨"can't dynamically load the file", by rw [hmsg]; rfl, ?_, ?_⟩
    · exact ⟨fun _ => Or.inr ⟨hw, hoe⟩, fun _ => rfl⟩
    · refine ⟨fun hc => absurd hc (by decide), fun hc => ?_⟩
      obtain ⟨_, _, hc, _⟩ := hc
      rcases hc with hc | hc
      · rw [hw] at hc; exact absurd hc (by simp)
      · rw [hoe] at hc; exact absurd hc (by simp)
  · rw [construct_of_tryLoad_error _ _ _ _ _ _ _ _ _ _ _ ht] at he
    have hmsg : e = ⟨77, loadErrorMessage (fName windows modName sExt) 2⟩ := by
      simpa using he.symm
    refine ⟨"can't locate the 'Dynamic' symbol", by rw [hmsg]; rfl, ?_, ?_⟩
    · refine ⟨fun hc => absurd hc (by decide), fun hc => ?_⟩
      rcases hc with hc | ⟨hw, hc⟩
      · rw [ho] at hc; exact absurd hc (by simp)
      · rcases hoe with hoe | hoe
        · rw [hw] at hoe; exact absurd hoe (by simp)
        · rw [hc] at hoe; exact absurd hoe (by simp)
    · exact ⟨fun _ => ⟨h, ho, hoe, hs⟩, fun _ => rfl⟩
  · rw [construct_of_tryLoad_ok _ _ _ _ _ _ _ _ _ _ _ _ ht] at he
    exact absurd he (by simp)

/-- C8, witness: the unit opens and the lookup of `Dynamic` fails. -/
theorem C8_load_error_message_witness :
    (DynamicModelDLL.construct false noSymbolLoader "m" 1 3 1 2 ⟨[4]⟩ ".so").result
        = .error ⟨77, "Error when loading ./m_dynamic.so (can't locate the 'Dynamic' symbol)"⟩ ∧
      ∃ cause,
        "Error when loading ./m_dynamic.so (can't locate the 'Dynamic' symbol)"
          = "Error when loading " ++ fName false "m" ".so" ++ " (" ++ cause ++ ")" ∧
        (cause = "can't dynamically load the file" ↔
          (noSymbolLoader.dlopen (fName false "m" ".so") = none ∨
            (false = false ∧ noSymbolLoader.openErr (fName false "m" ".so") = true))) ∧
        (cause = "can't locate the 'Dynamic' symbol" ↔
          ∃ h, noSymbolLoader.dlopen (fName false "m" ".so") = some h ∧
            (false = true ∨ noSymbolLoader.openErr (fName false "m" ".so") = false) ∧
            (noSymbolLoader.dlsym h "Dynamic" = none ∨
              (false = false ∧ noSymbolLoader.symErr h "Dynamic" = true))) :=
  ⟨rfl,
    (C8_load_error_message false noSymbolLoader "m" 1 3 1 2 ⟨[4]⟩ ".so"
      ⟨77, "Error when loading ./m_dynamic.so (can't locate the 'Dynamic' symbol)"⟩ rfl).2⟩

/-! ## Release of the handle: C9 -/

/-- Over the life of an object, the handle `h` is released once when an open returned it and, on
non-Windows builds, `dlerror()` reported no error after that open, and is not released
otherwise. -/
theorem lifecycle_close_count (windows : Bool) (ld : Loader) (modName : String)
    (y_length j_cols n_max_lag n_exog : Int) (ySteady_arg : Vector) (sExt : String)
    (h : Handle) :
    closeCount h (lifecycle windows ld modName y_length j_cols n_max_lag n_exog ySteady_arg sExt)
      = if obtained h (lifecycle windows ld modName y_length j_cols n_max_lag n_exog ySteady_arg
            sExt) = true ∧
          ¬ (windows = false ∧ ld.openErr (fName windows modName sExt) = true)
        then 1 else 0 := by
  unfold lifecycle
  rcases tryLoad_cases windows ld (fName windows modName sExt) with
    ⟨ho, ht⟩ | ⟨h0, ho, hw, hoe, ht⟩ | ⟨h0, ho, hoe, hs, ht⟩ | ⟨h0, f, ho, hoe, hs, hse, ht⟩
  · rw [construct_of_tryLoad_error _ _ _ _ _ _ _ _ _ _ _ ht]
    simp [closeCount, obtained]
  · rw [construct_of_tryLoad_error _ _ _ _ _ _ _ _ _ _ _ ht]
    have hn : ¬ (obtained h [Event.dlopen (fName windows modName sExt) (some h0)] = true ∧
        ¬ (windows = false ∧ ld.openErr (fName windows modName sExt) = true)) :=
      fun hc => hc.2 ⟨hw, hoe⟩
    simp only [if_neg hn]
    rfl
  · rw [construct_of_tryLoad_error _ _ _ _ _ _ _ _ _ _ _ ht]
    have hn : ¬ (windows = false ∧ ld.openErr (fName windows modName sExt) = true) := by
      rintro ⟨hw, hc⟩
      rcases hoe with hoe | hoe
      · rw [hw] at hoe; exact absurd hoe (by simp)
      · rw [hc] at hoe; exact absurd hoe (by simp)
    by_cases hh : h0 = h <;> simp [closeCount, obtained, hn, hh]
  · rw [construct_of_tryLoad_ok _ _ _ _ _ _ _ _ _ _ _ _ ht]
    have hn : ¬ (windows = false ∧ ld.openErr (fName windows modName sExt) = true) := by
      rintro ⟨hw, hc⟩
      rcases hoe with hoe | hoe
      · rw [hw] at hoe; exact absurd hoe (by simp)
      · rw [hc] at hoe; exact absurd hoe (by simp)
    have hd : (DynamicModelDLL.destroy windows ld
        { length := y_length, jcols := j_cols, nMax_lag := n_max_lag, nExog := n_exog,
          ySteady := ySteady_arg, dynamicHinstance := h0, Dynamic := f }).trace
        = [Event.dlclose h0] := by
      unfold DynamicModelDLL.destroy
      cases windows <;> simp
      split <;> rfl
    simp only [hd]
    by_cases hh : h0 = h <;> simp [closeCount, obtained, hn, hh]

/-- C9, the code at the failing input: on a non-Windows build the open returns the handle 1 and
`dlerror()` reports an error after it; the constructor throws, the whole life of the object is
that one open, and the handle obtained is never released. -/
theorem C9_handle_not_released :
    lifecycle false staleLoader "m" 1 3 1 2 ⟨[4]⟩ ".so"
        = [Event.dlopen "./m_dynamic.so" (some 1)] ∧
      obtained 1 (lifecycle false staleLoader "m" 1 3 1 2 ⟨[4]⟩ ".so") = true ∧
      closeCount 1 (lifecycle false staleLoader "m" 1 3 1 2 ⟨[4]⟩ ".so") = 0 := by
  refine ⟨rfl, rfl, rfl⟩

/-! ## Derivation ids: C10 -/

/-- Empty tables are coherent. -/
theorem coherent_empty : DynamicModel.Coherent {} := by
  refine ⟨rfl, fun key d => ?_⟩
  simp [deriv_id_table_t.find]

/-- Allocation keeps the tables coherent. -/
theorem coherent_allocate (m : DynamicModel) (symb_id lag : Int) (hm : m.Coherent) :
    (m.allocate symb_id lag).1.Coherent := by
  obtain ⟨hlen, hinv⟩ := hm
  unfold DynamicModel.allocate
  cases hf : m.deriv_id_table.find (symb_id, lag) with
  | some d0 => exact ⟨hlen, hinv⟩
  | none =>
    refine ⟨by simp [hlen], fun key d => ?_⟩
    simp only [deriv_id_table_t.find]
    by_cases hk : (symb_id, lag) = key
    · subst hk
      simp only [if_true, Option.some.injEq]
      constructor
      · intro hd
        subst hd
        refine ⟨Int.ofNat_nonneg _, ?_⟩
        rw [Int.toNat_ofNat, hlen, List.getElem?_append_right (le_refl _)]
        simp
      · rintro ⟨hd0, hget⟩
        by_cases hlt : d.toNat < m.inv_deriv_id_table.length
        · rw [List.getElem?_append_left hlt] at hget
          have := (hinv (symb_id, lag) d).mpr ⟨hd0, hget⟩
          rw [hf] at this
          exact absurd this (by simp)
        · have hlt2 : d.toNat < (m.inv_deriv_id_table ++ [(symb_id, lag)]).length := by
            obtain ⟨h, _⟩ := List.getElem?_eq_some_iff.mp hget
            exact h
          simp only [List.length_append, List.length_singleton] at hlt2
          have : d.toNat = m.inv_deriv_id_table.length := by omega
          rw [hlen]
          omega
    · simp only [if_neg hk]
      rw [hinv key d]
      by_cases hlt : d.toNat < m.inv_deriv_id_table.length
      · rw [List.getElem?_append_left hlt]
      · have hnone : m.inv_deriv_id_table[d.toNat]? = none :=
          List.getElem?_eq_none (by omega)
        rw [hnone, List.getElem?_append_right (by omega)]
        constructor
        · rintro ⟨_, hc⟩
          exact absurd hc (by simp)
        · rintro ⟨_, hc⟩
          exfalso
          by_cases h0 : d.toNat - m.inv_deriv_id_table.length = 0
          · rw [h0] at hc
            simp only [List.getElem?_cons_zero, Option.some.injEq] at hc
            exact hk hc
          · have : ([(symb_id, lag)] : List (Int × Int))[d.toNat
                - m.inv_deriv_id_table.length]? = none :=
              List.getElem?_eq_none (by simp; omega)
            rw [this] at hc
            exact absurd hc (by simp)

/-- The pairs with an id after an allocation are those that had one and the pair allocated. -/
theorem find_allocate_isSome (m : DynamicModel) (symb_id lag : Int) (key : Int × Int) :
    ((m.allocate symb_id lag).1.deriv_id_table.find key).isSome = true ↔
      ((m.deriv_id_table.find key).isSome = true ∨ key = (symb_id, lag)) := by
  unfold DynamicModel.allocate
  cases hf : m.deriv_id_table.find (symb_id, lag) with
  | some d0 =>
    constructor
    · intro h; exact Or.inl h
    · rintro (h | h)
      · exact h
      · subst h; simp [hf]
  | none =>
    simp only [deriv_id_table_t.find]
    by_cases hk : (symb_id, lag) = key
    · subst hk; simp
    · simp only [if_neg hk]
      constructor
      · intro h; exact Or.inl h
      · rintro (h | h)
        · exact h
        · exact absurd h.symm hk

/-- Allocating a list of pairs in turn keeps the tables coherent, and gives an id to those pairs
beside the pairs that had one. -/
theorem foldl_allocate (vars : List (Int × Int)) (m : DynamicModel) (hm : m.Coherent) :
    (vars.foldl (fun m v => (m.allocate v.1 v.2).1) m).Coherent ∧
      ∀ key, ((vars.foldl (fun m v => (m.allocate v.1 v.2).1) m).deriv_id_table.find key).isSome
        = true ↔ ((m.deriv_id_table.find key).isSome = true ∨ key ∈ vars) := by
  induction vars generalizing m with
  | nil => simp [hm]
  | cons v t ih =>
    obtain ⟨hc, hk⟩ := ih (m.allocate v.1 v.2).1 (coherent_allocate m v.1 v.2 hm)
    refine ⟨hc, fun key => ?_⟩
    simp only [List.foldl_cons]
    rw [hk key, find_allocate_isSome]
    simp only [List.mem_cons]
    constructor
    · rintro ((h | h) | h)
      · exact Or.inl h
      · exact Or.inr (Or.inl h)
      · exact Or.inr (Or.inr h)
    · rintro (h | h | h)
      · exact Or.inl (Or.inl h)
      · exact Or.inl (Or.inr h)
      · exact Or.inr h

/-- In coherent tables a pair that has an id is given back by the lookups on that id. -/
theorem coherent_lookup_of_find (m : DynamicModel) (hm : m.Coherent) (symb_id lag d : Int)
    (hf : m.deriv_id_table.find (symb_id, lag) = some d) :
    m.getSymbIDByDerivID d = .ok symb_id ∧ m.getLagByDerivID d = .ok lag := by
  obtain ⟨hd0, hget⟩ := (hm.2 (symb_id, lag) d).mp hf
  obtain ⟨hlt, _⟩ := List.getElem?_eq_some_iff.mp hget
  have hcond : ¬ (d < 0 ∨ (m.inv_deriv_id_table.length : Int) ≤ d) := by omega
  unfold DynamicModel.getSymbIDByDerivID DynamicModel.getLagByDerivID
  simp only [if_neg hcond, hget]
  exact ⟨trivial, trivial⟩

/-- C10: in the tables built by allocating the pairs `vars` from empty tables, the domain of the
deriv-id table is `vars`; for a pair of the domain `getDerivID` returns an id on which
`getSymbIDByDerivID` and `getLagByDerivID` return the two components of the pair; for an id of the
inverse table the two lookups return a pair on which `getDerivID` returns that id; `getDerivID`
on a pair outside the domain and the two lookups on an id outside the inverse table fail with
`UnknownDerivIDException`. -/
theorem C10_deriv_id_inverse (vars : List (Int × Int)) (symb_id lag d : Int) :
    ((((DynamicModel.computeDerivIDs vars).deriv_id_table.find (symb_id, lag)).isSome = true ↔
        (symb_id, lag) ∈ vars)) ∧
      ((symb_id, lag) ∈ vars →
        ∃ id, (DynamicModel.computeDerivIDs vars).getDerivID symb_id lag = .ok id ∧
          (DynamicModel.computeDerivIDs vars).getSymbIDByDerivID id = .ok symb_id ∧
          (DynamicModel.computeDerivIDs vars).getLagByDerivID id = .ok lag) ∧
      ((0 ≤ d ∧ d < ((DynamicModel.computeDerivIDs vars).inv_deriv_id_table.length : Int)) →
        ∃ s l, (DynamicModel.computeDerivIDs vars).getSymbIDByDerivID d = .ok s ∧
          (DynamicModel.computeDerivIDs vars).getLagByDerivID d = .ok l ∧
          (DynamicModel.computeDerivIDs vars).getDerivID s l = .ok d) ∧
      ((symb_id, lag) ∉ vars →
        (DynamicModel.computeDerivIDs vars).getDerivID symb_id lag = .error .mk) ∧
      ((d < 0 ∨ ((DynamicModel.computeDerivIDs vars).inv_deriv_id_table.length : Int) ≤ d) →
        (DynamicModel.computeDerivIDs vars).getSymbIDByDerivID d = .error .mk ∧
          (DynamicModel.computeDerivIDs vars).getLagByDerivID d = .error .mk) := by
  obtain ⟨hc, hk⟩ := foldl_allocate vars {} coherent_empty
  have hdom : ∀ key, ((DynamicModel.computeDerivIDs vars).deriv_id_table.find key).isSome
      = true ↔ key ∈ vars := by
    intro key
    have := hk key
    simpa [deriv_id_table_t.find] using this
  have hc2 : (DynamicModel.computeDerivIDs vars).Coherent := hc
  refine ⟨hdom (symb_id, lag), fun hin => ?_, fun hd => ?_, fun hout => ?_, fun hd => ?_⟩
  · have hs := (hdom (symb_id, lag)).mpr hin
    obtain ⟨id, hid⟩ := Option.isSome_iff_exists.mp hs
    refine ⟨id, ?_, coherent_lookup_of_find _ hc2 symb_id lag id hid⟩
    unfold DynamicModel.getDerivID
    rw [hid]
  · obtain ⟨hd0, hdlt⟩ := hd
    have hlt : d.toNat < (DynamicModel.computeDerivIDs vars).inv_deriv_id_table.length := by
      omega
    have hget : (DynamicModel.computeDerivIDs vars).inv_deriv_id_table[d.toNat]?
        = some ((DynamicModel.computeDerivIDs vars).inv_deriv_id_table[d.toNat]) :=
      List.getElem?_eq_getElem hlt
    generalize (DynamicModel.computeDerivIDs vars).inv_deriv_id_table[d.toNat] = key at hget
    obtain ⟨s, l⟩ := key
    have hf := (hc2.2 (s, l) d).mpr ⟨hd0, hget⟩
    obtain ⟨h1, h2⟩ := coherent_lookup_of_find _ hc2 s l d hf
    refine ⟨s, l, h1, h2, ?_⟩
    unfold DynamicModel.getDerivID
    rw [hf]
  · have hs : ¬ ((DynamicModel.computeDerivIDs vars).deriv_id_table.find (symb_id, lag)).isSome
        = true := fun h => hout ((hdom (symb_id, lag)).mp h)
    have hn : (DynamicModel.computeDerivIDs vars).deriv_id_table.find (symb_id, lag) = none := by
      simpa using hs
    unfold DynamicModel.getDerivID
    rw [hn]
  · unfold DynamicModel.getSymbIDByDerivID DynamicModel.getLagByDerivID
    simp only [if_pos hd]
    exact ⟨trivial, trivial⟩

/-- C10, witness: the pairs (3, 0) and (5, -1) are allocated, the first of them twice; the pair
(5, -1) has the id 1, and the id 1 leads back to it. -/
theorem C10_deriv_id_inverse_witness :
    (((5 : Int), (-1 : Int)) ∈ [((3 : Int), (0 : Int)), (5, -1), (3, 0)] ∧
      ∃ id, (DynamicModel.computeDerivIDs [(3, 0), (5, -1), (3, 0)]).getDerivID 5 (-1) = .ok id ∧
        (DynamicModel.computeDerivIDs [(3, 0), (5, -1), (3, 0)]).getSymbIDByDerivID id = .ok 5 ∧
        (DynamicModel.computeDerivIDs [(3, 0), (5, -1), (3, 0)]).getLagByDerivID id
          = .ok (-1)) ∧
    (DynamicModel.computeDerivIDs [(3, 0), (5, -1), (3, 0)]).getDerivID 5 (-1) = .ok 1 ∧
    (DynamicModel.computeDerivIDs [(3, 0), (5, -1), (3, 0)]).inv_deriv_id_table
      = [(3, 0), (5, -1)] :=
  ⟨⟨by decide,
      (C10_deriv_id_inverse [(3, 0), (5, -1), (3, 0)] 5 (-1) 1).2.1 (by decide)⟩,
    rfl, rfl⟩

/-! ## Blocks: the table laid by the decomposition -/

/-- The table has one entry for each component. -/
theorem layBlocks_length (first : Int) (L : List Component) :
    (layBlocks first L).length = L.length := by
  induction L generalizing first with
  | nil => rfl
  | cons c rest ih => simp [layBlocks, ih]

/-- Entry `b` of the table records the type of component `b`, the position at which it starts,
its number of equations and its feedback size. -/
theorem layBlocks_getElem? (first : Int) (L : List Component) (b : Nat) :
    (layBlocks first L)[b]? =
      (L[b]?).map fun c =>
        ((c.simulation_type, first + (blockStart L b : Int)),
          ((c.equations.length : Int), c.mfs)) := by
  induction L generalizing first b with
  | nil => simp [layBlocks]
  | cons c rest ih =>
    cases b with
    | zero => simp [layBlocks, blockStart]
    | succ b =>
      simp only [layBlocks, blockStart, List.getElem?_cons_succ, ih]
      cases rest[b]? with
      | none => rfl
      | some c2 =>
        simp only [Option.map_some', Nat.cast_add]
        rw [add_assoc]

/-- Component `b + 1` starts where component `b` ends. -/
theorem blockStart_succ (L : List Component) (b : Nat) (c : Component) (hc : L[b]? = some c) :
    blockStart L (b + 1) = blockStart L b + c.equations.length := by
  induction L generalizing b with
  | nil => simp at hc
  | cons c0 rest ih =>
    cases b with
    | zero =>
      simp only [List.getElem?_cons_zero, Option.some.injEq] at hc
      subst hc
      cases rest <;> simp [blockStart]
    | succ b =>
      simp only [List.getElem?_cons_succ] at hc
      simp only [blockStart, ih b hc]
      omega

/-- Past the last component, the start is the number of all equations. -/
theorem blockStart_of_length_le (L : List Component) (b : Nat) (hb : L.length ≤ b) :
    blockStart L b = ((L.map Component.equations).flatten).length := by
  induction L generalizing b with
  | nil => simp [blockStart]
  | cons c0 rest ih =>
    cases b with
    | zero => simp at hb
    | succ b =>
      simp only [List.length_cons, Nat.add_le_add_iff_right] at hb
      simp [blockStart, ih b hb]

/-- A component ends at or before the start of every later one. -/
theorem blockStart_mono (L : List Component) (b b2 : Nat) (c : Component)
    (hc : L[b]? = some c) (hlt : b < b2) :
    blockStart L b + c.equations.length ≤ blockStart L b2 := by
  induction L generalizing b b2 with
  | nil => simp at hc
  | cons c0 rest ih =>
    cases b2 with
    | zero => omega
    | succ b2 =>
      cases b with
      | zero =>
        simp only [List.getElem?_cons_zero, Option.some.injEq] at hc
        subst hc
        simp [blockStart]
      | succ b =>
        simp only [List.getElem?_cons_succ] at hc
        have := ih b b2 hc (by omega)
        simp only [blockStart]
        omega

/-- Position `i` of component `b` is position `blockStart + i` of the reordered equations. -/
theorem flatten_getElem?_blockStart (L : List Component) (b i : Nat) (c : Component)
    (hc : L[b]? = some c) (hi : i < c.equations.length) :
    ((L.map Component.equations).flatten)[blockStart L b + i]? = c.equations[i]? := by
  induction L generalizing b with
  | nil => simp at hc
  | cons c0 rest ih =>
    cases b with
    | zero =>
      simp only [List.getElem?_cons_zero, Option.some.injEq] at hc
      subst hc
      simp only [List.map_cons, List.flatten_cons, blockStart, Nat.zero_add]
      exact List.getElem?_append_left hi
    | succ b =>
      simp only [List.getElem?_cons_succ] at hc
      simp only [List.map_cons, List.flatten_cons, blockStart]
      rw [List.getElem?_append_right (by omega)]
      have : c0.equations.length + blockStart rest b + i - c0.equations.length
          = blockStart rest b + i := by omega
      rw [this]
      exact ih b hc

/-- An `int` index that is a natural number reads the vector at that position. -/
theorem vectorAt_natCast {α : Type} (v : List α) (b : Nat) : vectorAt v (b : Int) = v[b]? := by
  unfold vectorAt
  simp

/-- A natural number below 2^32 is kept by the conversion to `unsigned int`. -/
theorem toUnsignedInt_natCast (k : Nat) (hk : k < 4294967296) : toUnsignedInt (k : Int) = k := by
  unfold toUnsignedInt
  omega

/-- Entry `b` of the block table after the decomposition. -/
theorem computeBlockDecomposition_entry (base : DynamicModel) (L : List Component) (b : Nat) :
    vectorAt (base.computeBlockDecomposition L).block_type_firstequation_size_mfs (b : Int) =
      (L[b]?).map fun c =>
        ((c.simulation_type, (blockStart L b : Int)), ((c.equations.length : Int), c.mfs)) := by
  rw [vectorAt_natCast]
  simp [DynamicModel.computeBlockDecomposition, layBlocks_getElem?]

/-- A component ends within the reordered equations. -/
theorem blockStart_add_le (L : List Component) (b : Nat) (c : Component)
    (hc : L[b]? = some c) :
    blockStart L b + c.equations.length ≤ ((L.map Component.equations).flatten).length := by
  have hb : b < L.length := (List.getElem?_eq_some_iff.mp hc).1
  have h := blockStart_mono L b L.length c hc hb
  rwa [blockStart_of_length_le L L.length (le_refl _)] at h

/-- After the decomposition, the first equation of block `b` is the start of component `b` and
its size is the number of equations of that component, when the equation count fits an `int`. -/
theorem computeBlockDecomposition_first_size (base : DynamicModel) (L : List Component)
    (hn : ((L.map Component.equations).flatten).length < 2147483648)
    (b : Nat) (c : Component) (hc : L[b]? = some c) :
    (base.computeBlockDecomposition L).getBlockFirstEquation (b : Int)
        = some (blockStart L b) ∧
      (base.computeBlockDecomposition L).getBlockSize (b : Int)
        = some c.equations.length := by
  have hle := blockStart_add_le L b c hc
  unfold DynamicModel.getBlockFirstEquation DynamicModel.getBlockSize
  rw [computeBlockDecomposition_entry, hc]
  simp only [Option.map_some']
  rw [toUnsignedInt_natCast _ (by omega), toUnsignedInt_natCast _ (by omega)]
  exact ⟨rfl, rfl⟩

/-- After the decomposition, equation `i` of block `b` is read at position `blockStart + i` of
the reordered equations. -/
theorem computeBlockDecomposition_equationID (base : DynamicModel) (L : List Component)
    (b i : Nat) (c : Component) (hc : L[b]? = some c) :
    (base.computeBlockDecomposition L).getBlockEquationID (b : Int) (i : Int)
      = ((L.map Component.equations).flatten)[blockStart L b + i]? := by
  unfold DynamicModel.getBlockEquationID
  rw [computeBlockDecomposition_entry, hc]
  simp only [Option.map_some']
  rw [← Nat.cast_add, vectorAt_natCast]
  rfl

/-! ## C11 -/

/-- C11: after the block decomposition of ordered components, with the number of blocks and the
number `n` of equations fitting an `int`: there are as many blocks as components; block 0 starts
at equation 0; each block starts where the block before it ends; the last block ends at `n` (and
`n` is 0 when there is no block); and when `equation_reordered` is a permutation of `0..n-1`,
every original equation number is returned by `getBlockEquationID(b, i)` for exactly one pair
`(b, i)` with `b` below the number of blocks and `i` below the size of block `b`. -/
theorem C11_blocks_partition (base : DynamicModel) (L : List Component)
    (hB : L.length < 2147483648)
    (hn : (base.computeBlockDecomposition L).equation_reordered.length < 2147483648) :
    (base.computeBlockDecomposition L).getNbBlocks = L.length ∧
      (0 < (base.computeBlockDecomposition L).getNbBlocks →
        (base.computeBlockDecomposition L).getBlockFirstEquation 0 = some 0) ∧
      (∀ b : Nat, b + 1 < (base.computeBlockDecomposition L).getNbBlocks →
        ∃ f s, (base.computeBlockDecomposition L).getBlockFirstEquation (b : Int) = some f ∧
          (base.computeBlockDecomposition L).getBlockSize (b : Int) = some s ∧
          (base.computeBlockDecomposition L).getBlockFirstEquation ((b : Int) + 1)
            = some (f + s)) ∧
      (∀ b : Nat, b + 1 = (base.computeBlockDecomposition L).getNbBlocks →
        ∃ f s, (base.computeBlockDecomposition L).getBlockFirstEquation (b : Int) = some f ∧
          (base.computeBlockDecomposition L).getBlockSize (b : Int) = some s ∧
          f + s = (base.computeBlockDecomposition L).equation_reordered.length) ∧
      ((base.computeBlockDecomposition L).getNbBlocks = 0 →
        (base.computeBlockDecomposition L).equation_reordered.length = 0) ∧
      ((base.computeBlockDecomposition L).equation_reordered.Perm
          ((List.range (base.computeBlockDecomposition L).equation_reordered.length).map
            Int.ofNat) →
        ∀ e : Int, 0 ≤ e →
          e < ((base.computeBlockDecomposition L).equation_reordered.length : Int) →
          ∃! p : Nat × Nat,
            p.1 < (base.computeBlockDecomposition L).getNbBlocks ∧
            (∃ s, (base.computeBlockDecomposition L).getBlockSize (p.1 : Int) = some s ∧
              p.2 < s) ∧
            (base.computeBlockDecomposition L).getBlockEquationID (p.1 : Int) (p.2 : Int)
              = some e) := by
  have hF : (base.computeBlockDecomposition L).equation_reordered
      = (L.map Component.equations).flatten := rfl
  rw [hF] at hn ⊢
  have hNb : (base.computeBlockDecomposition L).getNbBlocks = L.length := by
    unfold DynamicModel.getNbBlocks
    have : (base.computeBlockDecomposition L).block_type_firstequation_size_mfs.length
        = L.length := layBlocks_length 0 L
    rw [this, toUnsignedInt_natCast _ (by omega)]
  have hget : ∀ b, b < L.length → ∃ c, L[b]? = some c := fun b hb =>
    ⟨L[b], List.getElem?_eq_getElem hb⟩
  rw [hNb]
  refine ⟨rfl, fun h0 => ?_, fun b hb => ?_, fun b hb => ?_, fun h0 => ?_, fun hperm e he0 hen => ?_⟩
  · obtain ⟨c, hc⟩ := hget 0 h0
    have h := (computeBlockDecomposition_first_size base L hn 0 c hc).1
    have hz : blockStart L 0 = 0 := by cases L <;> rfl
    rw [hz] at h
    exact h
  · obtain ⟨c, hc⟩ := hget b (by omega)
    obtain ⟨c2, hc2⟩ := hget (b + 1) hb
    obtain ⟨h1, h2⟩ := computeBlockDecomposition_first_size base L hn b c hc
    have h3 := (computeBlockDecomposition_first_size base L hn (b + 1) c2 hc2).1
    rw [blockStart_succ L b c hc] at h3
    exact ⟨_, _, h1, h2, by simpa using h3⟩
  · obtain ⟨c, hc⟩ := hget b (by omega)
    obtain ⟨h1, h2⟩ := computeBlockDecomposition_first_size base L hn b c hc
    refine ⟨_, _, h1, h2, ?_⟩
    rw [← blockStart_succ L b c hc, blockStart_of_length_le L (b + 1) (by omega)]
  · have hL : L = [] := List.length_eq_zero.mp h0
    subst hL
    rfl
  · have hnodup : ((L.map Component.equations).flatten).Nodup :=
      (List.Perm.nodup_iff hperm).mpr
        ((List.nodup_range _).map (fun a b h => by simpa using h))
    have hmem : e ∈ (L.map Component.equations).flatten := by
      rw [List.Perm.mem_iff hperm]
      simp only [List.mem_map, List.mem_range]
      exact ⟨e.toNat, by omega, by simp [Int.toNat_of_nonneg he0]⟩
    obtain ⟨l, hl, hel⟩ := List.mem_flatten.mp hmem
    obtain ⟨c, hcL, rfl⟩ := List.mem_map.mp hl
    obtain ⟨b, hb⟩ := List.getElem?_of_mem hcL
    obtain ⟨i, hi⟩ := List.getElem?_of_mem hel
    have hblt : b < L.length := (List.getElem?_eq_some_iff.mp hb).1
    have hilt : i < c.equations.length := (List.getElem?_eq_some_iff.mp hi).1
    have hpos : ((L.map Component.equations).flatten)[blockStart L b + i]? = some e := by
      rw [flatten_getElem?_blockStart L b i c hb hilt, hi]
    have hposlt : blockStart L b + i < ((L.map Component.equations).flatten).length :=
      (List.getElem?_eq_some_iff.mp hpos).1
    refine ⟨(b, i), ⟨hblt, ⟨_, (computeBlockDecomposition_first_size base L hn b c hb).2, hilt⟩,
      ?_⟩, ?_⟩
    · show (base.computeBlockDecomposition L).getBlockEquationID (b : Int) (i : Int) = some e
      rw [computeBlockDecomposition_equationID base L b i c hb, hpos]
    · rintro ⟨b2, i2⟩ ⟨hb2, ⟨s, hs, hi2⟩, hq⟩
      simp only at hb2 hs hi2 hq
      obtain ⟨c2, hc2⟩ := hget b2 hb2
      rw [(computeBlockDecomposition_first_size base L hn b2 c2 hc2).2] at hs
      have hs2 : c2.equations.length = s := by simpa using hs
      rw [computeBlockDecomposition_equationID base L b2 i2 c2 hc2] at hq
      have hsame : blockStart L b + i = blockStart L b2 + i2 :=
        List.getElem?_inj hposlt hnodup (by rw [hpos, hq])
      rcases Nat.lt_trichotomy b b2 with hlt | heq | hgt
      · have := blockStart_mono L b b2 c hb hlt
        omega
      · subst heq
        have : i = i2 := by omega
        subst this
        rfl
      · have := blockStart_mono L b2 b c2 hc2 hgt
        omega

/-- C11, witness: three components of two, one and three equations; the table has three blocks,
and the equation 4 is returned for exactly one pair. -/
theorem C11_blocks_partition_witness :
    (({} : DynamicModel).computeBlockDecomposition sampleComponents).getNbBlocks = 3 ∧
      (({} : DynamicModel).computeBlockDecomposition sampleComponents).equation_reordered
        = [2, 0, 1, 4, 3, 5] ∧
      (({} : DynamicModel).computeBlockDecomposition sampleComponents).getBlockEquationID 2 0
        = some 4 ∧
      ∃! p : Nat × Nat,
        p.1 < (({} : DynamicModel).computeBlockDecomposition sampleComponents).getNbBlocks ∧
        (∃ s, (({} : DynamicModel).computeBlockDecomposition sampleComponents).getBlockSize
            (p.1 : Int) = some s ∧ p.2 < s) ∧
        (({} : DynamicModel).computeBlockDecomposition sampleComponents).getBlockEquationID
            (p.1 : Int) (p.2 : Int) = some 4 :=
  ⟨(C11_blocks_partition {} sampleComponents (by decide) (by decide)).1, rfl, by decide,
    (C11_blocks_partition {} sampleComponents (by decide) (by decide)).2.2.2.2.2
      (by decide) 4 (by decide) (by decide)⟩

/-! ## C13 -/

/-- What `undoes f g` gives at a position of `f`. -/
theorem undoes_spec (f g : List Int) (h : undoes f g = true) (p : Nat) (hp : p < f.length) :
    ∃ e, f[p]? = some e ∧ 0 ≤ e ∧ g[e.toNat]? = some (p : Int) := by
  unfold undoes at h
  rw [List.all_eq_true] at h
  have hp2 := h p (List.mem_range.mpr hp)
  cases hf : f[p]? with
  | none => simp [hf] at hp2
  | some e =>
    simp only [hf, Bool.and_eq_true, decide_eq_true_eq, beq_iff_eq] at hp2
    exact ⟨e, rfl, hp2.1, hp2.2⟩

/-- Reading `g` at what `f` holds at an `int` position of `f` gives that position back. -/
theorem vectorAt_undoes (f g : List Int) (h : undoes f g = true) (k : Int) (hk0 : 0 ≤ k)
    (hk : k < f.length) :
    ∃ e, vectorAt f k = some e ∧ vectorAt g e = some k := by
  obtain ⟨e, hfe, he0, hge⟩ := undoes_spec f g h k.toNat (by omega)
  refine ⟨e, ?_, ?_⟩
  · unfold vectorAt
    rw [if_neg (by omega), hfe]
  · unfold vectorAt
    rw [if_neg (by omega), hge, Int.toNat_of_nonneg hk0]

/-- C13: in a state where `inv_equation_reordered` and `inv_variable_reordered` are the inverse
permutations of `equation_reordered` and `variable_reordered`, for a block `b` of the table
starting at `first`: at every position `i` with `first + i` inside the reordered vector,
`getBlockInitialEquationID(b, getBlockEquationID(b, i)) = i` and
`getBlockInitialVariableID(b, getBlockVariableID(b, i)) = i`; and for every original equation
number `e`, so for those lying in block `b`,
`getBlockEquationID(b, getBlockInitialEquationID(b, e)) = e`. -/
theorem C13_block_positions (m : DynamicModel) (b : Int)
    (entry : (BlockSimulationType × Int) × (Int × Int))
    (heq : inversePermutations m.equation_reordered m.inv_equation_reordered = true)
    (hvar : inversePermutations m.variable_reordered m.inv_variable_reordered = true)
    (hb : vectorAt m.block_type_firstequation_size_mfs b = some entry) :
    (∀ i : Int, 0 ≤ entry.1.2 + i → entry.1.2 + i < m.equation_reordered.length →
        ∃ e, m.getBlockEquationID b i = some e ∧ m.getBlockInitialEquationID b e = some i) ∧
      (∀ i : Int, 0 ≤ entry.1.2 + i → entry.1.2 + i < m.variable_reordered.length →
        ∃ v, m.getBlockVariableID b i = some v ∧ m.getBlockInitialVariableID b v = some i) ∧
      (∀ e : Int, 0 ≤ e → e < m.equation_reordered.length →
        ∃ i, m.getBlockInitialEquationID b e = some i ∧
          m.getBlockEquationID b i = some e) := by
  unfold inversePermutations at heq hvar
  simp only [Bool.and_eq_true, decide_eq_true_eq] at heq hvar
  obtain ⟨⟨hlen, hfg⟩, hgf⟩ := heq
  obtain ⟨⟨_, hvfg⟩, _⟩ := hvar
  refine ⟨fun i h0 h1 => ?_, fun i h0 h1 => ?_, fun e h0 h1 => ?_⟩
  · obtain ⟨e, h2, h3⟩ := vectorAt_undoes _ _ hfg (entry.1.2 + i) h0 h1
    refine ⟨e, ?_, ?_⟩
    · unfold DynamicModel.getBlockEquationID
      rw [hb]
      exact h2
    · unfold DynamicModel.getBlockInitialEquationID
      rw [hb, h3]
      simp
  · obtain ⟨v, h2, h3⟩ := vectorAt_undoes _ _ hvfg (entry.1.2 + i) h0 h1
    refine ⟨v, ?_, ?_⟩
    · unfold DynamicModel.getBlockVariableID
      rw [hb]
      exact h2
    · unfold DynamicModel.getBlockInitialVariableID
      rw [hb, h3]
      simp
  · obtain ⟨p, h2, h3⟩ := vectorAt_undoes _ _ hgf e h0 (by omega)
    refine ⟨p - entry.1.2, ?_, ?_⟩
    · unfold DynamicModel.getBlockInitialEquationID
      rw [hb, h2]
    · unfold DynamicModel.getBlockEquationID
      rw [hb]
      simp only [add_sub_cancel]
      exact h3

/-- C13, witness: block 2 of `sampleBlockModel` starts at position 3; its position 1 holds the
equation 3, and the equation 5 lies at its position 2. -/
theorem C13_block_positions_witness :
    (∃ e, sampleBlockModel.getBlockEquationID 2 1 = some e ∧
        sampleBlockModel.getBlockInitialEquationID 2 e = some 1) ∧
      sampleBlockModel.getBlockEquationID 2 1 = some 3 ∧
      (∃ i, sampleBlockModel.getBlockInitialEquationID 2 5 = some i ∧
        sampleBlockModel.getBlockEquationID 2 i = some 5) ∧
      sampleBlockModel.getBlockInitialEquationID 2 5 = some 2 :=
  ⟨(C13_block_positions sampleBlockModel 2 ((3, 3), (3, 1)) (by decide) (by decide)
      (by decide)).1 1 (by decide) (by decide),
    by decide,
    (C13_block_positions sampleBlockModel 2 ((3, 3), (3, 1)) (by decide) (by decide)
      (by decide)).2.2 5 (by decide) (by decide),
    by decide⟩

/-! ## C12 -/

end Dynare
